import Mathlib

/-!
Shallow embedding of the music-machine step sequencer (static/js sequencer and
audio-engine sources) together with proofs about its transport, pattern store,
resize and playback logic.  Pure data is modelled directly; DOM and WebAudio
calls are side effects outside the model, except that scheduled interval
timers are tracked explicitly (handle counter, live-timer list, and which
callback body the currently tracked timer runs).
-/

namespace MusicMachine

/-- The six drum instruments, in the insertion order of the source object. -/
inductive Drum
  | kick | snare | hihat | openhat | crash | clap
deriving DecidableEq, Repr, Fintype

/-- The four synth instruments, in the insertion order of the source object. -/
inductive Synth
  | bass | lead | pad | arp
deriving DecidableEq, Repr, Fintype

/-- Drum iteration order used by `playStep` (`Object.keys` order). -/
def drumList : List Drum := [.kick, .snare, .hihat, .openhat, .crash, .clap]

/-- Synth iteration order used by `playStep` (`Object.keys` order). -/
def synthList : List Synth := [.bass, .lead, .pad, .arp]

/-- A (section, instrument) pair, as passed to `toggleInstrumentRemoved`. -/
def Inst : Type := Drum ⊕ Synth

/-- `sequence.tracks`: one boolean activation array per instrument. -/
structure Tracks where
  drums : Drum → List Bool
  synths : Synth → List Bool

/-- `sequence.removed`: per-instrument removal flags. -/
structure RemovedFlags where
  drums : Drum → Bool
  synths : Synth → Bool

/-- `sequence.volume.perInstrument`. -/
structure PerInstrumentVolume where
  drums : Drum → ℚ
  synths : Synth → ℚ

/-- `sequence.volume`. -/
structure Volume where
  master : ℚ
  drums : ℚ
  synths : ℚ
  perInstrument : PerInstrumentVolume

/-- `sequence.effects`. -/
structure Effects where
  reverb : ℚ
  delay : ℚ
  filter : ℚ

/-- The serializable `sequence` object owned by the `Sequencer`. -/
structure Sequence where
  name : String
  bpm : Int
  steps : Nat
  tracks : Tracks
  volume : Volume
  effects : Effects
  removed : RemovedFlags

/-- One pattern slot (`createEmptyPattern` shape): bar count, a full copy of
track data, removal flags and per-step synth MIDI notes. -/
structure Pattern where
  bars : Nat
  tracks : Tracks
  removed : RemovedFlags
  synthNotes : Synth → List Nat

/-- `this.patterns`: active slot id, pending slot id (or none) and the fixed
store of 4 slots (ids 1..4 mapped onto `Fin 4`). -/
structure PatternState where
  active : Int
  pending : Option Int
  store : Fin 4 → Pattern

/-- The whole mutable state of a `Sequencer` instance.  Timer bookkeeping
models `setInterval`/`clearInterval`: `stepInterval` is the tracked handle,
`liveTimers` all currently scheduled interval timers, `nextTimer` the next
fresh handle (handles start at 1, so a stored handle is always truthy), and
`timerRunsPendingCheck` records whether the tracked timer runs the callback
installed by `play()` (which applies a pending pattern at the loop boundary)
or the one installed by `updateStepInterval` (which does not). -/
structure SeqState where
  isPlaying : Bool
  currentStep : Nat
  bpm : Int
  tsNum : Nat
  tsDen : Nat
  steps : Nat
  synthNotes : Synth → List Nat
  patterns : PatternState
  sequence : Sequence
  currentSequenceId : Option Int
  stepInterval : Option Nat
  liveTimers : List Nat
  nextTimer : Nat
  timerRunsPendingCheck : Bool

/-- Map a JS slot id to an index into the fixed 4-slot store; ids outside
1..4 have no slot (`this.patterns.store[i]` is undefined). -/
def slotIdx (i : Int) : Option (Fin 4) :=
  if i = 1 then some 0
  else if i = 2 then some 1
  else if i = 3 then some 2
  else if i = 4 then some 3
  else none

/-- `Math.round(num * (16 / den))` for nonnegative rationals:
`floor(16*num/den + 1/2)` computed as `(32*num + den) / (2*den)`. -/
def jsRound16 (num den : Nat) : Nat := (32 * num + den) / (2 * den)

/-- `stepsPerBar()`: `Math.max(1, Math.round(num * (16 / den)))`. -/
def stepsPerBar (s : SeqState) : Nat := max 1 (jsRound16 s.tsNum s.tsDen)

/-- `getBars()`: `this.patterns.store[this.patterns.active]?.bars || 1`. -/
def getBars (s : SeqState) : Nat :=
  match slotIdx s.patterns.active with
  | some j => let b := (s.patterns.store j).bars; if b = 0 then 1 else b
  | none => 1

/-- The array-resize helper shared by `setBars` and `resizePatternsTo`:
pad the tail with `fill` when growing, slice when shrinking. -/
def resizeList {α : Type} (arr : List α) (len : Nat) (fill : α) : List α :=
  if arr.length < len then arr ++ List.replicate (len - arr.length) fill
  else arr.take len

/-- `saveCurrentPattern()`: snapshot the live tracks, removal flags, synth
notes and bar count into the active slot.  (With an invalid active id the
source would fault; the model leaves the store unchanged, a case no
reachable state hits since `active` is always 1..4.) -/
def saveCurrentPattern (s : SeqState) : SeqState :=
  { s with patterns := { s.patterns with store :=
      (match slotIdx s.patterns.active with
      | none => s.patterns.store
      | some j =>
          Function.update s.patterns.store j
            { bars := getBars s, tracks := s.sequence.tracks,
              removed := s.sequence.removed, synthNotes := s.synthNotes }) } }

/-- `resizePatternsTo(len)`: resize every slot's activation and note arrays. -/
def resizePatternsTo (len : Nat) (s : SeqState) : SeqState :=
  { s with patterns := { s.patterns with store := fun j =>
      let p := s.patterns.store j
      { p with
          tracks :=
            { drums := fun d => resizeList (p.tracks.drums d) len false,
              synths := fun y => resizeList (p.tracks.synths y) len false },
          synthNotes := fun y => resizeList (p.synthNotes y) len 69 } } }

/-- `applyPattern(i)`: no-op for a missing slot; otherwise save the outgoing
pattern, recompute steps from the incoming slot's bars (`p.bars || 1`) and
the current time signature, resize all slots, then deep-copy the incoming
slot (read after the resize, as the source aliases it) into the live state
and mark it active. -/
def applyPattern (i : Int) (s : SeqState) : SeqState :=
  match slotIdx i with
  | none => s
  | some j =>
    let s1 := saveCurrentPattern s
    let bars := (s1.patterns.store j).bars
    let newSteps := (if bars = 0 then 1 else bars) * stepsPerBar s1
    let s2 := resizePatternsTo newSteps
      { s1 with steps := newSteps, sequence := { s1.sequence with steps := newSteps } }
    let p := s2.patterns.store j
    { s2 with
        sequence := { s2.sequence with tracks := p.tracks, removed := p.removed },
        synthNotes := p.synthNotes,
        patterns := { s2.patterns with active := i } }

/-- `requestPattern(i)`: no-op on the active id; while playing only records
the request as pending; otherwise applies immediately. -/
def requestPattern (i : Int) (s : SeqState) : SeqState :=
  if i = s.patterns.active then s
  else if s.isPlaying then { s with patterns := { s.patterns with pending := some i } }
  else applyPattern i s

/-- `play()`: set the playing flag and schedule a new interval timer running
the full tick (with the pending-pattern check).  The source never clears a
previously scheduled timer here. -/
def play (s : SeqState) : SeqState :=
  { s with
      isPlaying := true,
      stepInterval := some s.nextTimer,
      liveTimers := s.nextTimer :: s.liveTimers,
      nextTimer := s.nextTimer + 1,
      timerRunsPendingCheck := true }

/-- `stop()`: clear the playing flag, cancel the tracked timer if any, and
reset the step index to 0. -/
def stop (s : SeqState) : SeqState :=
  match s.stepInterval with
  | some t =>
      { s with isPlaying := false, liveTimers := s.liveTimers.erase t,
               stepInterval := none, currentStep := 0 }
  | none => { s with isPlaying := false, currentStep := 0 }

/-- `updateStepInterval()`: if a timer is tracked and we are playing, cancel
it and schedule a fresh one — whose callback, in the source, lacks the
pending-pattern block of the callback installed by `play()`. -/
def updateStepInterval (s : SeqState) : SeqState :=
  match s.stepInterval, s.isPlaying with
  | some t, true =>
      { s with
          liveTimers := s.nextTimer :: s.liveTimers.erase t,
          stepInterval := some s.nextTimer,
          nextTimer := s.nextTimer + 1,
          timerRunsPendingCheck := false }
  | _, _ => s

/-- `setBpm(bpm)`: clamp to [60,200], store in both the transport state and
the sequence snapshot, and rebuild the interval when playing. -/
def setBpm (t : Int) (s : SeqState) : SeqState :=
  let b := max 60 (min 200 t)
  let s1 := { s with bpm := b, sequence := { s.sequence with bpm := b } }
  if s1.isPlaying then updateStepInterval s1 else s1

/-- One voice fired by `playStep`: a drum hit, or a synth note carrying the
MIDI value later converted by `midiToFreq` in the audio-engine call. -/
inductive Voice
  | drum (d : Drum)
  | synth (y : Synth) (midi : Nat)
deriving DecidableEq, Repr

/-- `playStep()`: fire every non-removed instrument whose activation flag at
the current step is set; drums before synths, each in insertion order.
Out-of-range reads are `undefined` (falsy) in the source, hence `getD`. -/
def playStepVoices (s : SeqState) : List Voice :=
  ((drumList.filter fun d =>
      !s.sequence.removed.drums d && (s.sequence.tracks.drums d).getD s.currentStep false).map
    Voice.drum)
  ++ ((synthList.filter fun y =>
      !s.sequence.removed.synths y && (s.sequence.tracks.synths y).getD s.currentStep false).map
    fun y => Voice.synth y ((s.synthNotes y).getD s.currentStep 69))

/-- The boundary block of `play()`'s tick: if the current step is the last
one and a (truthy — nonzero) pattern id is pending, apply it and clear the
pending id. -/
def applyPendingAtBoundary (s : SeqState) : SeqState :=
  match s.patterns.pending with
  | some i =>
      if s.currentStep = s.steps - 1 ∧ i ≠ 0 then
        let sa := applyPattern i s
        { sa with patterns := { sa.patterns with pending := none } }
      else s
  | none => s

/-- The tick callback installed by `play()`: fire the step's voices, then at
the loop boundary apply a pending pattern, then advance the step index
modulo the (possibly new) step count. -/
def tickPlay (s : SeqState) : SeqState × List Voice :=
  let s1 := applyPendingAtBoundary s
  ({ s1 with currentStep := (s1.currentStep + 1) % s1.steps }, playStepVoices s)

/-- The tick callback installed by `updateStepInterval`: fire the step's
voices and advance — the source omits the pending-pattern block here. -/
def tickRebuilt (s : SeqState) : SeqState × List Voice :=
  ({ s with currentStep := (s.currentStep + 1) % s.steps }, playStepVoices s)

/-- One firing of the currently scheduled interval timer. -/
def tickOnce (s : SeqState) : SeqState × List Voice :=
  if s.timerRunsPendingCheck then tickPlay s else tickRebuilt s

/-- `n` consecutive timer firings (state part only). -/
def tickN : Nat → SeqState → SeqState
  | 0, s => s
  | n + 1, s => tickN n (tickOnce s).1

/-- `pat.bars = clamped` in `setBars`: persist the clamped bar count into
slot `j`. -/
def storeBars (c : Nat) (j : Fin 4) (s : SeqState) : SeqState :=
  { s with patterns := { s.patterns with
      store := Function.update s.patterns.store j
        { s.patterns.store j with bars := c } } }

/-- The live-state part of `setBars`'s resize: new step counts, every live
activation array resized with `false`, every live pitch array resized with
69, and the step index taken modulo the new count. -/
def resizeLive (n : Nat) (s : SeqState) : SeqState :=
  { s with
      steps := n,
      sequence := { s.sequence with
        steps := n,
        tracks :=
          { drums := fun d => resizeList (s.sequence.tracks.drums d) n false,
            synths := fun y => resizeList (s.sequence.tracks.synths y) n false } },
      synthNotes := fun y => resizeList (s.synthNotes y) n 69,
      currentStep := s.currentStep % n }

/-- `if (this.isPlaying) this.updateStepInterval()`. -/
def maybeRestartTimer (s : SeqState) : SeqState :=
  if s.isPlaying then updateStepInterval s else s

/-- `setBars(bars)`: clamp to [1,16], persist the bar count to the active
slot, recompute the step count, and if it changed resize the live arrays,
take the step index modulo the new count, rebuild the interval when playing,
and resize every stored pattern slot.  (No-op when the active id has no
slot, matching the `if (!pat) return` guard.) -/
def setBars (b : Int) (s : SeqState) : SeqState :=
  let clamped : Nat := (max 1 (min 16 b)).toNat
  match slotIdx s.patterns.active with
  | none => s
  | some j =>
    let s1 := storeBars clamped j s
    let newSteps := clamped * stepsPerBar s1
    if newSteps = s1.steps then s1
    else resizePatternsTo newSteps (maybeRestartTimer (resizeLive newSteps s1))

/-- `applyTimeSignature()`: recompute steps from the active slot's bars. -/
def applyTimeSignature (s : SeqState) : SeqState := setBars (getBars s) s

/-- The time-signature change handler: store the new numerator/denominator
and re-derive the step count. -/
def setTimeSignature (num den : Nat) (s : SeqState) : SeqState :=
  applyTimeSignature { s with tsNum := num, tsDen := den }

/-- `toggleInstrumentRemoved(section, sound)`: flip the removal flag. -/
def toggleInstrumentRemoved (inst : Inst) (s : SeqState) : SeqState :=
  match inst with
  | .inl d =>
      { s with sequence := { s.sequence with removed := { s.sequence.removed with
          drums := Function.update s.sequence.removed.drums d (!s.sequence.removed.drums d) } } }
  | .inr y =>
      { s with sequence := { s.sequence with removed := { s.sequence.removed with
          synths := Function.update s.sequence.removed.synths y (!s.sequence.removed.synths y) } } }

/-- `clearSequence()`: reset every activation flag of the live sequence to
false (`Array.fill(false)` preserves length); nothing else is touched. -/
def clearSequence (s : SeqState) : SeqState :=
  { s with sequence := { s.sequence with tracks :=
      { drums := fun d => (s.sequence.tracks.drums d).map fun _ => false,
        synths := fun y => (s.sequence.tracks.synths y).map fun _ => false } } }

/-- The serialized shape produced by `getSequenceData()`: the spread of the
sequence object plus the opaque persistence id. -/
structure Snapshot where
  seq : Sequence
  id : Option Int

/-- `getSequenceData()`. -/
def getSequenceData (s : SeqState) : Snapshot :=
  { seq := s.sequence, id := s.currentSequenceId }

/-- `loadSequence(data)` on a full snapshot: the object spread replaces every
sequence field (all fields are present in a snapshot of this shape, so the
`||`-default backfills do not fire), the persistence id is adopted, and
`setBpm(this.sequence.bpm)` re-clamps and re-stores the tempo. -/
def loadSequence (snap : Snapshot) (s : SeqState) : SeqState :=
  let s1 := { s with sequence := snap.seq, currentSequenceId := snap.id }
  setBpm s1.sequence.bpm s1

/-- An all-false / note-69 pattern of the given length (`createEmptyPattern`). -/
def emptyPattern (len : Nat) : Pattern :=
  { bars := 1,
    tracks := { drums := fun _ => List.replicate len false,
                synths := fun _ => List.replicate len false },
    removed := { drums := fun _ => false, synths := fun _ => false },
    synthNotes := fun _ => List.replicate len 69 }

/-- The sequence object built by the constructor. -/
def initSequence : Sequence :=
  { name := "Untitled Sequence"
    bpm := 120
    steps := 16
    tracks := { drums := fun _ => List.replicate 16 false,
                synths := fun _ => List.replicate 16 false }
    volume :=
      { master := 0.8, drums := 0.8, synths := 0.8,
        perInstrument :=
          { drums := fun d => match d with
              | .kick => 0.8 | .snare => 0.8 | .hihat => 0.7
              | .openhat => 0.7 | .crash => 0.6 | .clap => 0.7,
            synths := fun y => match y with
              | .bass => 0.7 | .lead => 0.6 | .pad => 0.6 | .arp => 0.5 } }
    effects := { reverb := 0.2, delay := 0.1, filter := 0 }
    removed := { drums := fun _ => false, synths := fun _ => false } }

/-- Constructor plus `initializeSequencer()` net effect on the model state:
stopped at step 0, 120 BPM, 4/4, 16 steps, four empty pattern slots with
slot 1 active (saving the pristine live state into slot 1 reproduces the
empty pattern), no timer scheduled. -/
def initState : SeqState :=
  { isPlaying := false
    currentStep := 0
    bpm := 120
    tsNum := 4
    tsDen := 4
    steps := 16
    synthNotes := fun _ => List.replicate 16 69
    patterns := { active := 1, pending := none, store := fun _ => emptyPattern 16 }
    sequence := initSequence
    currentSequenceId := none
    stepInterval := none
    liveTimers := []
    nextTimer := 1
    timerRunsPendingCheck := true }

/-- Envelope constants of one synth voice as passed to `generateSynth`
(`duration, attack, decay, sustain, release`, all in seconds or [0,1]). -/
structure Adsr where
  duration : ℚ
  attack : ℚ
  decay : ℚ
  sustain : ℚ
  release : ℚ

/-- `playSynthSound('bass')`: `generateSynth(freq*0.5, 'sawtooth', 0.5, 0.01, 0.3, 0.6, 0.4, 0.45, 'bass')`. -/
def bassVoice : Adsr :=
  { duration := 0.5, attack := 0.01, decay := 0.3, sustain := 0.6, release := 0.4 }

/-- `playSynthSound('lead')`: `generateSynth(freq, 'square', 0.3, 0.02, 0.15, 0.5, 0.2, 0.35, 'lead')`. -/
def leadVoice : Adsr :=
  { duration := 0.3, attack := 0.02, decay := 0.15, sustain := 0.5, release := 0.2 }

/-- `playSynthSound('pad')`: `generateSynth(freq, 'sine', 1.2, 0.4, 0.4, 0.8, 0.8, 0.4, 'pad')`. -/
def padVoice : Adsr :=
  { duration := 1.2, attack := 0.4, decay := 0.4, sustain := 0.8, release := 0.8 }

/-- `playSynthSound('arp')`: `generateSynth(freq, 'triangle', 0.18, 0.01, 0.08, 0.3, 0.15, 0.3, 'arp')`. -/
def arpVoice : Adsr :=
  { duration := 0.18, attack := 0.01, decay := 0.08, sustain := 0.3, release := 0.15 }

/-- The `generateSynth` parameter defaults, identical in both engine files:
`duration = 0.5, attack = 0.01, decay = 0.3, sustain = 0.7, release = 0.5`. -/
def generateSynthDefaults : Adsr :=
  { duration := 0.5, attack := 0.01, decay := 0.3, sustain := 0.7, release := 0.5 }

/-- Every envelope recipe the engine triggers for synth voices. -/
def engineVoices : List Adsr :=
  [bassVoice, leadVoice, padVoice, arpVoice, generateSynthDefaults]

/-- The non-overlap chain of envelope stage boundaries claimed by the spec:
`attack ≤ attack+decay ≤ duration-release ≤ duration`. -/
def stagesOrdered (e : Adsr) : Prop :=
  e.attack ≤ e.attack + e.decay ∧
  e.attack + e.decay ≤ e.duration - e.release ∧
  e.duration - e.release ≤ e.duration

/-- `new` is `old` resized to length `n`: growing pads the tail with `fill`,
shrinking truncates the tail. -/
def resizedSpec {α : Type} (old new : List α) (n : Nat) (fill : α) : Prop :=
  (old.length ≤ n → new = old ++ List.replicate (n - old.length) fill) ∧
  (n ≤ old.length → new = old.take n)

/-- Every activation and pitch array — live sequence and all 4 slots — has
length exactly `n`. -/
def arraysSized (s : SeqState) (n : Nat) : Prop :=
  (∀ d, (s.sequence.tracks.drums d).length = n) ∧
  (∀ y, (s.sequence.tracks.synths y).length = n) ∧
  (∀ y, (s.synthNotes y).length = n) ∧
  (∀ j : Fin 4,
    (∀ d, ((s.patterns.store j).tracks.drums d).length = n) ∧
    (∀ y, ((s.patterns.store j).tracks.synths y).length = n) ∧
    (∀ y, ((s.patterns.store j).synthNotes y).length = n))

instance arraysSizedDecidable (s : SeqState) (n : Nat) : Decidable (arraysSized s n) := by
  unfold arraysSized
  infer_instance

/-- What a settled resize from state `s0` to state `s'` with step count `n`
must look like: all arrays sized `n`, each obtained from its original by
pad-with-false / pad-with-69 or truncation, and the step index reduced
modulo `n`. -/
def ResizeOutcome (s0 s' : SeqState) (n : Nat) : Prop :=
  arraysSized s' n ∧
  (∀ d, resizedSpec (s0.sequence.tracks.drums d) (s'.sequence.tracks.drums d) n false) ∧
  (∀ y, resizedSpec (s0.sequence.tracks.synths y) (s'.sequence.tracks.synths y) n false) ∧
  (∀ y, resizedSpec (s0.synthNotes y) (s'.synthNotes y) n 69) ∧
  (∀ j : Fin 4,
    (∀ d, resizedSpec ((s0.patterns.store j).tracks.drums d)
            ((s'.patterns.store j).tracks.drums d) n false) ∧
    (∀ y, resizedSpec ((s0.patterns.store j).tracks.synths y)
            ((s'.patterns.store j).tracks.synths y) n false) ∧
    (∀ y, resizedSpec ((s0.patterns.store j).synthNotes y)
            ((s'.patterns.store j).synthNotes y) n 69)) ∧
  s'.currentStep = s0.currentStep % n

/-- The transport invariant of claim C9: a positive step count, an in-range
step index, and (strengthening that makes it inductive) a step index pinned
to 0 whenever the transport is stopped. -/
def TransportInv (s : SeqState) : Prop :=
  1 ≤ s.steps ∧ s.currentStep < s.steps ∧ (s.isPlaying = false → s.currentStep = 0)

instance transportInvDecidable (s : SeqState) : Decidable (TransportInv s) := by
  unfold TransportInv
  infer_instance

/-- Claim C9's conclusion at TransportInv-states: every public operation
(as the program invokes it — ticks fire only while playing, and direct
`applyPattern` calls happen only from the stopped `requestPattern` branch)
re-establishes the transport invariant, so the step count stays positive
and the step index used by the modulo advance and the array reads stays in
`[0, steps)`. -/
def TransportPreserved (s : SeqState) : Prop :=
  TransportInv (play s) ∧
  TransportInv (stop s) ∧
  (s.isPlaying = true → TransportInv (tickOnce s).1) ∧
  (∀ t, TransportInv (setBpm t s)) ∧
  (∀ b, TransportInv (setBars b s)) ∧
  (∀ num den, TransportInv (setTimeSignature num den s)) ∧
  (∀ i, TransportInv (requestPattern i s)) ∧
  (∀ i, s.isPlaying = false → TransportInv (applyPattern i s)) ∧
  (∀ snap, TransportInv (loadSequence snap s)) ∧
  TransportInv (clearSequence s)

/-- Everything `play()` does when invoked on an already-playing transport:
the playing flag and step position are untouched, but a fresh interval timer
is allocated, scheduled and tracked, while every previously scheduled timer
keeps running untracked. -/
def PlayAgainEffect (s : SeqState) : Prop :=
  (play s).isPlaying = s.isPlaying ∧
  (play s).currentStep = s.currentStep ∧
  (play s).steps = s.steps ∧
  (play s).sequence = s.sequence ∧
  (play s).patterns = s.patterns ∧
  (play s).stepInterval = some s.nextTimer ∧
  (play s).liveTimers = s.nextTimer :: s.liveTimers ∧
  (play s).liveTimers.length = s.liveTimers.length + 1 ∧
  (∀ t ∈ s.liveTimers, t ∈ (play s).liveTimers)

/-- All the observable state claim C7 enumerates, unchanged by requesting a
slot id that has no pattern, plus `applyPattern` being the exact identity. -/
def MissingSlotNoop (i : Int) (s : SeqState) : Prop :=
  applyPattern i s = s ∧
  (requestPattern i s).patterns.active = s.patterns.active ∧
  (requestPattern i s).sequence = s.sequence ∧
  (requestPattern i s).patterns.store = s.patterns.store ∧
  (requestPattern i s).synthNotes = s.synthNotes ∧
  (requestPattern i s).steps = s.steps ∧
  (requestPattern i s).currentStep = s.currentStep ∧
  (requestPattern i s).isPlaying = s.isPlaying

/-- The envelope-constant bounds that actually hold for every recipe: the
attack and final-release boundaries are ordered, but the decay boundary
always overshoots the sustain-hold point `duration - release`. -/
def EnvelopeBounds (e : Adsr) : Prop :=
  e.attack ≤ e.attack + e.decay ∧
  e.attack + e.decay ≤ e.duration ∧
  0 ≤ e.duration - e.release ∧
  e.duration - e.release ≤ e.duration ∧
  ¬ (e.attack + e.decay ≤ e.duration - e.release)

/-- The observable identity claim C4 asserts of
`loadSequence(getSequenceData())`: the whole sequence record (every track
flag, volumes incl. per-instrument, effect levels, removed flags, bpm, name,
step count), the persistence id, and the transport position are unchanged. -/
def RoundTrip (s : SeqState) : Prop :=
  (loadSequence (getSequenceData s) s).sequence = s.sequence ∧
  (loadSequence (getSequenceData s) s).currentSequenceId = s.currentSequenceId ∧
  (loadSequence (getSequenceData s) s).steps = s.steps ∧
  (loadSequence (getSequenceData s) s).currentStep = s.currentStep ∧
  (loadSequence (getSequenceData s) s).isPlaying = s.isPlaying

/-- Claim C5's property at state `s`: a removed instrument never fires a
voice, toggling removal touches neither activation flags nor pitch data
(only the one removal flag flips), and a tick leaves activation flags,
pitch arrays and removal flags intact. -/
def RemovalHides (s : SeqState) : Prop :=
  (∀ d, s.sequence.removed.drums d = true → Voice.drum d ∉ playStepVoices s) ∧
  (∀ y m, s.sequence.removed.synths y = true → Voice.synth y m ∉ playStepVoices s) ∧
  (∀ inst : Inst,
    (toggleInstrumentRemoved inst s).sequence.tracks = s.sequence.tracks ∧
    (toggleInstrumentRemoved inst s).synthNotes = s.synthNotes ∧
    (toggleInstrumentRemoved inst s).patterns = s.patterns ∧
    (toggleInstrumentRemoved inst s).sequence.steps = s.sequence.steps) ∧
  (∀ d, (toggleInstrumentRemoved (Sum.inl d) s).sequence.removed.drums d
      = !s.sequence.removed.drums d) ∧
  (∀ y, (toggleInstrumentRemoved (Sum.inr y) s).sequence.removed.synths y
      = !s.sequence.removed.synths y) ∧
  ((tickOnce s).1.sequence.tracks = s.sequence.tracks ∧
   (tickOnce s).1.synthNotes = s.synthNotes ∧
   (tickOnce s).1.sequence.removed = s.sequence.removed)

/-- Claim C2's conclusion: after `setBars b` (resp. a time-signature change
to `num/den`) settles, the step count is `b * stepsPerBar` (resp. the active
pattern's bar count times the new `stepsPerBar`), and every activation and
pitch array in the live sequence and in all 4 slots has been resized to
exactly that count by tail-padding (false / 69) or tail-truncation, with the
step index reduced modulo the new count. -/
def ResizeConsistency (s : SeqState) (b : Int) (num den : Nat) : Prop :=
  ((setBars b s).steps = b.toNat * stepsPerBar (setBars b s) ∧
    ResizeOutcome s (setBars b s) ((setBars b s).steps)) ∧
  ((setTimeSignature num den s).steps
      = getBars s * stepsPerBar (setTimeSignature num den s) ∧
    ResizeOutcome s (setTimeSignature num den s) ((setTimeSignature num den s).steps))

/-! ### Helper lemmas -/

lemma updateStepInterval_fields (s : SeqState) :
    (updateStepInterval s).isPlaying = s.isPlaying ∧
    (updateStepInterval s).currentStep = s.currentStep ∧
    (updateStepInterval s).steps = s.steps ∧
    (updateStepInterval s).bpm = s.bpm ∧
    (updateStepInterval s).tsNum = s.tsNum ∧
    (updateStepInterval s).tsDen = s.tsDen ∧
    (updateStepInterval s).sequence = s.sequence ∧
    (updateStepInterval s).synthNotes = s.synthNotes ∧
    (updateStepInterval s).patterns = s.patterns ∧
    (updateStepInterval s).currentSequenceId = s.currentSequenceId := by
  unfold updateStepInterval
  cases h1 : s.stepInterval <;> cases h2 : s.isPlaying <;> simp [h1, h2]

lemma map_const_eq_replicate {α β : Type} (l : List α) (b : β) :
    (l.map fun _ => b) = List.replicate l.length b := by
  induction l with
  | nil => rfl
  | cons a l ih => simp [List.replicate_succ, ih]

/-! ### Claim theorems -/

/-- C8: for every integer input `t`, `setBpm(t)` stores exactly
`clamp(t, 60, 200) = min(200, max(60, t))` in both the transport state and
the sequence snapshot, and is total (never rejects out-of-range input). -/
theorem c8_setBpm_clamps (t : Int) (s : SeqState) :
    (setBpm t s).bpm = min 200 (max 60 t) ∧
    (setBpm t s).sequence.bpm = min 200 (max 60 t) := by
  have h : max 60 (min 200 t) = min 200 (max 60 t) := by omega
  cases hp : s.isPlaying <;>
    simp [setBpm, hp, h, updateStepInterval_fields s, (updateStepInterval_fields _).2.2.2.1,
      (updateStepInterval_fields _).2.2.2.2.2.2.1]

/-- C10: `clearSequence()` sets every drum and synth activation flag of the
live sequence to false (lengths preserved) and changes nothing else: name,
bpm, step counts, volumes, effects, removed flags, synth pitch arrays, the
whole pattern state (store, active, pending), playing flag, step index,
timers and persistence id are untouched. -/
theorem c10_clearSequence_frame (s : SeqState) :
    (∀ d, (clearSequence s).sequence.tracks.drums d
        = List.replicate (s.sequence.tracks.drums d).length false) ∧
    (∀ y, (clearSequence s).sequence.tracks.synths y
        = List.replicate (s.sequence.tracks.synths y).length false) ∧
    (clearSequence s).sequence.name = s.sequence.name ∧
    (clearSequence s).sequence.bpm = s.sequence.bpm ∧
    (clearSequence s).sequence.steps = s.sequence.steps ∧
    (clearSequence s).sequence.volume = s.sequence.volume ∧
    (clearSequence s).sequence.effects = s.sequence.effects ∧
    (clearSequence s).sequence.removed = s.sequence.removed ∧
    (clearSequence s).synthNotes = s.synthNotes ∧
    (clearSequence s).patterns = s.patterns ∧
    (clearSequence s).isPlaying = s.isPlaying ∧
    (clearSequence s).currentStep = s.currentStep ∧
    (clearSequence s).bpm = s.bpm ∧
    (clearSequence s).steps = s.steps ∧
    (clearSequence s).stepInterval = s.stepInterval ∧
    (clearSequence s).liveTimers = s.liveTimers ∧
    (clearSequence s).currentSequenceId = s.currentSequenceId :=
  ⟨fun _ => map_const_eq_replicate _ _, fun _ => map_const_eq_replicate _ _,
    rfl, rfl, rfl, rfl, rfl, rfl, rfl, rfl, rfl, rfl, rfl, rfl, rfl, rfl, rfl⟩

/-- C6 counterexample: calling `play()` when already playing is not
idempotent — from the freshly playing state it schedules a second concurrent
interval timer, re-points the tracked handle at it, and even a subsequent
`stop()` leaves the first timer running. -/
theorem c6_counterexample :
    (play initState).isPlaying = true ∧
    (play (play initState)).liveTimers.length = 2 ∧
    (play (play initState)).stepInterval ≠ (play initState).stepInterval ∧
    (stop (play (play initState))).liveTimers = [1] := by decide

/-- C6 amended: with the playing flag already set, `play()` leaves the
playing flag, step index, sequence and pattern state unchanged, but it does
not leave the timer alone: it schedules and tracks a fresh interval timer
while every previously scheduled timer — including the one it orphans —
keeps running. -/
theorem c6_play_while_playing (s : SeqState) (h : s.isPlaying = true) :
    PlayAgainEffect s := by
  refine ⟨?_, rfl, rfl, rfl, rfl, rfl, rfl, rfl, fun t ht => List.mem_cons_of_mem _ ht⟩
  simp [play, h]

/-- Witness for C6: the amended theorem applied to the state right after the
first `play()`. -/
theorem c6_play_while_playing_witness :
    (play initState).isPlaying = true ∧ PlayAgainEffect (play initState) :=
  ⟨by decide, c6_play_while_playing (play initState) (by decide)⟩

/-- C7: a slot id with no pattern in the store is a no-op — `applyPattern`
is the identity (so no partial save of the outgoing pattern happens), and
`requestPattern` leaves the active id, live sequence, pattern store, pitch
arrays, step counts, step index and playing flag exactly as before, whether
playing or stopped. -/
theorem c7_missing_slot_noop (i : Int) (s : SeqState) (hi : slotIdx i = none) :
    MissingSlotNoop i s := by
  have happ : applyPattern i s = s := by unfold applyPattern; rw [hi]
  refine ⟨happ, ?_⟩
  unfold requestPattern
  split
  · exact ⟨rfl, rfl, rfl, rfl, rfl, rfl, rfl⟩
  · split
    · exact ⟨rfl, rfl, rfl, rfl, rfl, rfl, rfl⟩
    · rw [happ]
      exact ⟨rfl, rfl, rfl, rfl, rfl, rfl, rfl⟩

/-- Witness for C7: slot id 7 (outside 1..4) on the initial state. -/
theorem c7_missing_slot_noop_witness :
    slotIdx 7 = none ∧ MissingSlotNoop 7 initState :=
  ⟨by decide, c7_missing_slot_noop 7 initState (by decide)⟩

/-- C3 counterexample: the bass recipe
(`duration 0.5, attack 0.01, decay 0.3, release 0.4`) violates the claimed
chain — `attack + decay = 0.31` exceeds `duration - release = 0.1`. -/
theorem c3_counterexample : ¬ stagesOrdered bassVoice := by
  norm_num [stagesOrdered, bassVoice]

/-- C3 amended: for every synth voice recipe the engine triggers, the
envelope constants satisfy `attack ≤ attack+decay ≤ duration` and
`0 ≤ duration-release ≤ duration`, but the full claimed chain fails:
`attack + decay > duration - release` for every recipe, so the decay ramp
always overlaps the sustain-hold boundary. -/
theorem c3_envelope_bounds (e : Adsr) (he : e ∈ engineVoices) :
    EnvelopeBounds e := by
  fin_cases he <;>
    norm_num [EnvelopeBounds, bassVoice, leadVoice, padVoice, arpVoice, generateSynthDefaults]

/-- Witness for C3: the bass recipe is one of the engine's recipes. -/
theorem c3_envelope_bounds_witness :
    bassVoice ∈ engineVoices ∧ EnvelopeBounds bassVoice :=
  ⟨by simp [engineVoices], c3_envelope_bounds bassVoice (by simp [engineVoices])⟩

/-- C1 (evaluation at the failing input, with the intended behaviour shown
alongside): starting from the initial state, press play, tick to step 10,
request pattern 2.  Under the callback installed by `play()` the active
pattern stays 1 through steps 11..15 and the wrap tick 15→0 applies the
pending pattern (active 2, pending none).  But if `setBpm(140)` rebuilds the
interval mid-playback, the rebuilt callback — which omits the
pending-pattern block — advances 15→0 leaving active 1 and pending still 2:
the quantized switch is lost, contradicting the claim and spec §4.1. -/
theorem c1_rebuilt_interval_drops_pending_switch :
    (tickN 10 (play initState)).currentStep = 10 ∧
    (tickN 10 (play initState)).patterns.active = 1 ∧
    (requestPattern 2 (tickN 10 (play initState))).patterns.pending = some 2 ∧
    (tickN 5 (requestPattern 2 (tickN 10 (play initState)))).currentStep = 15 ∧
    (tickN 5 (requestPattern 2 (tickN 10 (play initState)))).patterns.active = 1 ∧
    (tickN 5 (requestPattern 2 (tickN 10 (play initState)))).patterns.pending = some 2 ∧
    (tickN 6 (requestPattern 2 (tickN 10 (play initState)))).currentStep = 0 ∧
    (tickN 6 (requestPattern 2 (tickN 10 (play initState)))).patterns.active = 2 ∧
    (tickN 6 (requestPattern 2 (tickN 10 (play initState)))).patterns.pending = none ∧
    (tickN 5 (setBpm 140 (requestPattern 2 (tickN 10 (play initState))))).currentStep = 15 ∧
    (tickN 6 (setBpm 140 (requestPattern 2 (tickN 10 (play initState))))).currentStep = 0 ∧
    (tickN 6 (setBpm 140 (requestPattern 2 (tickN 10 (play initState))))).patterns.active = 1 ∧
    (tickN 6 (setBpm 140 (requestPattern 2 (tickN 10 (play initState))))).patterns.pending = some 2 := by
  decide

/-- C4: for every state whose stored tempo is already clamped (true of all
reachable states, since the tempo is only ever written through `setBpm`),
`loadSequence(getSequenceData())` is observably the identity: the sequence
record — every activation flag, all volumes, effect levels, removed flags,
bpm, name and step count — the persistence id and the transport state are
unchanged. -/
theorem c4_roundtrip (s : SeqState)
    (h1 : 60 ≤ s.sequence.bpm) (h2 : s.sequence.bpm ≤ 200) :
    RoundTrip s := by
  have hb : max 60 (min 200 s.sequence.bpm) = s.sequence.bpm := by omega
  cases hp : s.isPlaying <;>
    simp [RoundTrip, loadSequence, getSequenceData, setBpm, hp, hb, updateStepInterval_fields]

/-- Witness for C4: the initial state (bpm 120). -/
theorem c4_roundtrip_witness :
    60 ≤ initState.sequence.bpm ∧ initState.sequence.bpm ≤ 200 ∧ RoundTrip initState :=
  ⟨by decide, by decide, c4_roundtrip initState (by decide) (by decide)⟩

/-- C5: removal hides but never deletes — a removed instrument fires no
voice from `playStep()` even at steps where its activation flag is set,
toggling removal changes nothing but the one removal flag, and a tick (with
no pattern switch pending) leaves all activation flags, pitch arrays and
removal flags unchanged. -/
theorem c5_removed_hides_never_deletes (s : SeqState)
    (hp : s.patterns.pending = none) : RemovalHides s := by
  refine ⟨?_, ?_, ?_, ?_, ?_, ?_⟩
  · intro d hd
    simp [playStepVoices, hd]
  · intro y m hy
    simp [playStepVoices, hy]
    intro x _ h1 _ hxy _
    rw [hxy] at h1
    rw [h1] at hy
    exact Bool.false_ne_true hy
  · intro inst
    cases inst <;> exact ⟨rfl, rfl, rfl, rfl⟩
  · intro d
    simp [toggleInstrumentRemoved]
  · intro y
    simp [toggleInstrumentRemoved]
  · cases htc : s.timerRunsPendingCheck <;>
      simp [tickOnce, tickPlay, tickRebuilt, applyPendingAtBoundary, htc, hp]

/-- Witness for C5: the initial state has no pending pattern. -/
theorem c5_removed_hides_never_deletes_witness :
    initState.patterns.pending = none ∧ RemovalHides initState :=
  ⟨rfl, c5_removed_hides_never_deletes initState rfl⟩

lemma resizeList_length {α : Type} (arr : List α) (n : Nat) (f : α) :
    (resizeList arr n f).length = n := by
  unfold resizeList
  split
  · rename_i h
    simp
    omega
  · rename_i h
    simp [List.length_take]
    omega

lemma resizeList_of_le {α : Type} {arr : List α} {n : Nat} (f : α) (h : arr.length ≤ n) :
    resizeList arr n f = arr ++ List.replicate (n - arr.length) f := by
  unfold resizeList
  split
  · rfl
  · rename_i hlt
    have hEq : arr.length = n := by omega
    rw [← hEq]
    simp

lemma resizeList_of_ge {α : Type} {arr : List α} {n : Nat} (f : α) (h : n ≤ arr.length) :
    resizeList arr n f = arr.take n := by
  unfold resizeList
  split
  · rename_i hlt
    exact absurd h (by omega)
  · rfl

lemma resizeList_spec {α : Type} (arr : List α) (n : Nat) (f : α) :
    resizedSpec arr (resizeList arr n f) n f :=
  ⟨fun h => resizeList_of_le f h, fun h => resizeList_of_ge f h⟩

lemma resizedSpec_refl {α : Type} {arr : List α} {n : Nat} (f : α) (h : arr.length = n) :
    resizedSpec arr arr n f := by
  constructor
  · intro _
    rw [h, Nat.sub_self]
    simp
  · intro _
    rw [← h, List.take_length]

@[simp] lemma storeBars_steps (c : Nat) (j : Fin 4) (s : SeqState) :
    (storeBars c j s).steps = s.steps := rfl

@[simp] lemma storeBars_sequence (c : Nat) (j : Fin 4) (s : SeqState) :
    (storeBars c j s).sequence = s.sequence := rfl

@[simp] lemma storeBars_synthNotes (c : Nat) (j : Fin 4) (s : SeqState) :
    (storeBars c j s).synthNotes = s.synthNotes := rfl

@[simp] lemma storeBars_currentStep (c : Nat) (j : Fin 4) (s : SeqState) :
    (storeBars c j s).currentStep = s.currentStep := rfl

@[simp] lemma storeBars_isPlaying (c : Nat) (j : Fin 4) (s : SeqState) :
    (storeBars c j s).isPlaying = s.isPlaying := rfl

@[simp] lemma storeBars_tsNum (c : Nat) (j : Fin 4) (s : SeqState) :
    (storeBars c j s).tsNum = s.tsNum := rfl

@[simp] lemma storeBars_tsDen (c : Nat) (j : Fin 4) (s : SeqState) :
    (storeBars c j s).tsDen = s.tsDen := rfl

@[simp] lemma stepsPerBar_storeBars (c : Nat) (j : Fin 4) (s : SeqState) :
    stepsPerBar (storeBars c j s) = stepsPerBar s := rfl

lemma storeBars_store (c : Nat) (j j' : Fin 4) (s : SeqState) :
    ((storeBars c j s).patterns.store j').tracks = (s.patterns.store j').tracks ∧
    ((storeBars c j s).patterns.store j').synthNotes = (s.patterns.store j').synthNotes ∧
    ((storeBars c j s).patterns.store j').removed = (s.patterns.store j').removed := by
  by_cases hjj : j' = j
  · subst hjj
    simp [storeBars, Function.update_same]
  · simp [storeBars, Function.update_noteq hjj]

@[simp] lemma resizeLive_steps (n : Nat) (s : SeqState) :
    (resizeLive n s).steps = n := rfl

@[simp] lemma resizeLive_sequence_steps (n : Nat) (s : SeqState) :
    (resizeLive n s).sequence.steps = n := rfl

@[simp] lemma resizeLive_currentStep (n : Nat) (s : SeqState) :
    (resizeLive n s).currentStep = s.currentStep % n := rfl

@[simp] lemma resizeLive_isPlaying (n : Nat) (s : SeqState) :
    (resizeLive n s).isPlaying = s.isPlaying := rfl

@[simp] lemma resizeLive_patterns (n : Nat) (s : SeqState) :
    (resizeLive n s).patterns = s.patterns := rfl

@[simp] lemma resizeLive_tsNum (n : Nat) (s : SeqState) :
    (resizeLive n s).tsNum = s.tsNum := rfl

@[simp] lemma resizeLive_tsDen (n : Nat) (s : SeqState) :
    (resizeLive n s).tsDen = s.tsDen := rfl

@[simp] lemma resizeLive_drums (n : Nat) (s : SeqState) (d : Drum) :
    (resizeLive n s).sequence.tracks.drums d
      = resizeList (s.sequence.tracks.drums d) n false := rfl

@[simp] lemma resizeLive_synths (n : Nat) (s : SeqState) (y : Synth) :
    (resizeLive n s).sequence.tracks.synths y
      = resizeList (s.sequence.tracks.synths y) n false := rfl

@[simp] lemma resizeLive_notes (n : Nat) (s : SeqState) (y : Synth) :
    (resizeLive n s).synthNotes y = resizeList (s.synthNotes y) n 69 := rfl

@[simp] lemma resizePatternsTo_sequence (n : Nat) (s : SeqState) :
    (resizePatternsTo n s).sequence = s.sequence := rfl

@[simp] lemma resizePatternsTo_steps (n : Nat) (s : SeqState) :
    (resizePatternsTo n s).steps = s.steps := rfl

@[simp] lemma resizePatternsTo_currentStep (n : Nat) (s : SeqState) :
    (resizePatternsTo n s).currentStep = s.currentStep := rfl

@[simp] lemma resizePatternsTo_isPlaying (n : Nat) (s : SeqState) :
    (resizePatternsTo n s).isPlaying = s.isPlaying := rfl

@[simp] lemma resizePatternsTo_synthNotes (n : Nat) (s : SeqState) :
    (resizePatternsTo n s).synthNotes = s.synthNotes := rfl

@[simp] lemma resizePatternsTo_tsNum (n : Nat) (s : SeqState) :
    (resizePatternsTo n s).tsNum = s.tsNum := rfl

@[simp] lemma resizePatternsTo_tsDen (n : Nat) (s : SeqState) :
    (resizePatternsTo n s).tsDen = s.tsDen := rfl

@[simp] lemma resizePatternsTo_active (n : Nat) (s : SeqState) :
    (resizePatternsTo n s).patterns.active = s.patterns.active := rfl

@[simp] lemma resizePatternsTo_pending (n : Nat) (s : SeqState) :
    (resizePatternsTo n s).patterns.pending = s.patterns.pending := rfl

@[simp] lemma resizePatternsTo_store_drums (n : Nat) (s : SeqState) (j : Fin 4) (d : Drum) :
    ((resizePatternsTo n s).patterns.store j).tracks.drums d
      = resizeList ((s.patterns.store j).tracks.drums d) n false := rfl

@[simp] lemma resizePatternsTo_store_synths (n : Nat) (s : SeqState) (j : Fin 4) (y : Synth) :
    ((resizePatternsTo n s).patterns.store j).tracks.synths y
      = resizeList ((s.patterns.store j).tracks.synths y) n false := rfl

@[simp] lemma resizePatternsTo_store_notes (n : Nat) (s : SeqState) (j : Fin 4) (y : Synth) :
    ((resizePatternsTo n s).patterns.store j).synthNotes y
      = resizeList ((s.patterns.store j).synthNotes y) n 69 := rfl

@[simp] lemma resizePatternsTo_store_bars (n : Nat) (s : SeqState) (j : Fin 4) :
    ((resizePatternsTo n s).patterns.store j).bars = (s.patterns.store j).bars := rfl

@[simp] lemma resizePatternsTo_store_removed (n : Nat) (s : SeqState) (j : Fin 4) :
    ((resizePatternsTo n s).patterns.store j).removed = (s.patterns.store j).removed := rfl

lemma maybeRestartTimer_fields (s : SeqState) :
    (maybeRestartTimer s).isPlaying = s.isPlaying ∧
    (maybeRestartTimer s).currentStep = s.currentStep ∧
    (maybeRestartTimer s).steps = s.steps ∧
    (maybeRestartTimer s).bpm = s.bpm ∧
    (maybeRestartTimer s).tsNum = s.tsNum ∧
    (maybeRestartTimer s).tsDen = s.tsDen ∧
    (maybeRestartTimer s).sequence = s.sequence ∧
    (maybeRestartTimer s).synthNotes = s.synthNotes ∧
    (maybeRestartTimer s).patterns = s.patterns ∧
    (maybeRestartTimer s).currentSequenceId = s.currentSequenceId := by
  unfold maybeRestartTimer
  split
  · exact updateStepInterval_fields s
  · exact ⟨rfl, rfl, rfl, rfl, rfl, rfl, rfl, rfl, rfl, rfl⟩

lemma one_le_getBars (s : SeqState) : 1 ≤ getBars s := by
  unfold getBars
  cases slotIdx s.patterns.active
  · exact le_refl 1
  · simp only []
    split <;> omega

lemma setBars_spec (s : SeqState) (b : Int) (j : Fin 4)
    (hj : slotIdx s.patterns.active = some j)
    (hsz : arraysSized s s.steps) (hstep : s.currentStep < s.steps) :
    (setBars b s).steps = (max 1 (min 16 b)).toNat * stepsPerBar s ∧
    (setBars b s).tsNum = s.tsNum ∧
    (setBars b s).tsDen = s.tsDen ∧
    ResizeOutcome s (setBars b s) ((setBars b s).steps) := by
  obtain ⟨hsz1, hsz2, hsz3, hsz4⟩ := hsz
  simp only [setBars, hj]
  split
  · rename_i hc
    simp only [stepsPerBar_storeBars, storeBars_steps] at hc
    refine ⟨by simp [hc.symm], rfl, rfl, ?_, ?_, ?_, ?_, ?_, ?_⟩
    · refine ⟨?_, ?_, ?_, fun j' => ?_⟩
      · exact fun d => hsz1 d
      · exact fun y => hsz2 y
      · exact fun y => hsz3 y
      · obtain ⟨ht, hn, _⟩ := storeBars_store (max 1 (min 16 b)).toNat j j' s
        exact ⟨by rw [ht]; exact (hsz4 j').1,
               by rw [ht]; exact (hsz4 j').2.1,
               by rw [hn]; exact (hsz4 j').2.2⟩
    · exact fun d => resizedSpec_refl false (hsz1 d)
    · exact fun y => resizedSpec_refl false (hsz2 y)
    · exact fun y => resizedSpec_refl 69 (hsz3 y)
    · intro j'
      obtain ⟨ht, hn, _⟩ := storeBars_store (max 1 (min 16 b)).toNat j j' s
      refine ⟨fun d => ?_, fun y => ?_, fun y => ?_⟩
      · rw [ht]; exact resizedSpec_refl false ((hsz4 j').1 d)
      · rw [ht]; exact resizedSpec_refl false ((hsz4 j').2.1 y)
      · rw [hn]; exact resizedSpec_refl 69 ((hsz4 j').2.2 y)
    · exact (Nat.mod_eq_of_lt hstep).symm
  · rename_i hc
    refine ⟨?_, ?_, ?_, ?_, ?_, ?_, ?_, ?_, ?_⟩
    · simp [maybeRestartTimer_fields]
    · simp [maybeRestartTimer_fields]
    · simp [maybeRestartTimer_fields]
    · refine ⟨fun d => ?_, fun y => ?_, fun y => ?_, fun j' => ⟨fun d => ?_, fun y => ?_, fun y => ?_⟩⟩ <;>
        simp [maybeRestartTimer_fields, resizeList_length]
    · intro d
      simp [maybeRestartTimer_fields]
      exact resizeList_spec _ _ _
    · intro y
      simp [maybeRestartTimer_fields]
      exact resizeList_spec _ _ _
    · intro y
      simp [maybeRestartTimer_fields]
      exact resizeList_spec _ _ _
    · intro j'
      obtain ⟨ht, hn, _⟩ := storeBars_store (max 1 (min 16 b)).toNat j j' s
      refine ⟨fun d => ?_, fun y => ?_, fun y => ?_⟩ <;>
        simp [maybeRestartTimer_fields, ht, hn] <;>
        exact resizeList_spec _ _ _
    · simp [maybeRestartTimer_fields]

lemma stepsPerBar_congr {s s' : SeqState}
    (h1 : s'.tsNum = s.tsNum) (h2 : s'.tsDen = s.tsDen) :
    stepsPerBar s' = stepsPerBar s := by
  unfold stepsPerBar
  rw [h1, h2]

/-- C2: for every bar count `b ∈ [1,16]` and time signature, after
`setBars(b)` or a time-signature change settles, the step count equals
`bars * stepsPerBar` (`stepsPerBar = max(1, round(num*16/den))`), every
activation and pitch array in the live sequence and in all 4 pattern slots
has exactly that length — grown arrays tail-padded with `false` / 69,
shrunk arrays tail-truncated — and the step index is taken modulo the new
count.  Hypotheses are the reachable-state facts: a valid active slot,
arrays sized to the current step count, an in-range step index, and a
stored bar count ≤ 16. -/
theorem c2_resize_consistency (s : SeqState) (b : Int) (num den : Nat) (j : Fin 4)
    (hj : slotIdx s.patterns.active = some j)
    (hb1 : 1 ≤ b) (hb2 : b ≤ 16)
    (hsz : arraysSized s s.steps) (hstep : s.currentStep < s.steps)
    (hbars : getBars s ≤ 16) :
    ResizeConsistency s b num den := by
  constructor
  · obtain ⟨h1, h2, h3, h4⟩ := setBars_spec s b j hj hsz hstep
    have hclamp : (max 1 (min 16 b)).toNat = b.toNat := by omega
    rw [stepsPerBar_congr h2 h3]
    rw [hclamp] at h1
    exact ⟨h1, h4⟩
  · have hg1 : 1 ≤ getBars s := one_le_getBars s
    have hgb : getBars { s with tsNum := num, tsDen := den } = getBars s := rfl
    obtain ⟨h1, h2, h3, h4⟩ :=
      setBars_spec { s with tsNum := num, tsDen := den } (getBars s) j hj hsz hstep
    have hclamp : (max 1 (min 16 (getBars s : Int))).toNat = getBars s := by omega
    rw [hclamp] at h1
    unfold setTimeSignature applyTimeSignature
    rw [hgb, stepsPerBar_congr h2 h3]
    exact ⟨h1, h4⟩

/-- Witness for C2: the initial state, `setBars 2` and a 3/8 signature. -/
theorem c2_resize_consistency_witness :
    slotIdx initState.patterns.active = some 0 ∧
    (1 : Int) ≤ 2 ∧ (2 : Int) ≤ 16 ∧
    arraysSized initState initState.steps ∧
    initState.currentStep < initState.steps ∧
    getBars initState ≤ 16 ∧
    ResizeConsistency initState 2 3 8 :=
  ⟨by decide, by decide, by decide, by decide, by decide, by decide,
    c2_resize_consistency initState 2 3 8 0 (by decide) (by decide) (by decide)
      (by decide) (by decide) (by decide)⟩

lemma bool_tf {b : Bool} (ht : b = true) (hf : b = false) : False := by
  rw [ht] at hf
  exact Bool.noConfusion hf

lemma transportInv_of_fields {s s' : SeqState}
    (hst : s'.steps = s.steps) (hcs : s'.currentStep = s.currentStep)
    (hip : s'.isPlaying = s.isPlaying) (h : TransportInv s) : TransportInv s' := by
  obtain ⟨h1, h2, h3⟩ := h
  refine ⟨?_, ?_, ?_⟩
  · rw [hst]; exact h1
  · rw [hst, hcs]; exact h2
  · rw [hip, hcs]; exact h3

lemma applyPattern_fields (i : Int) (s : SeqState) :
    (applyPattern i s).isPlaying = s.isPlaying ∧
    (applyPattern i s).currentStep = s.currentStep := by
  unfold applyPattern
  cases h : slotIdx i
  · exact ⟨rfl, rfl⟩
  · exact ⟨rfl, rfl⟩

lemma one_le_applyPattern_steps (i : Int) (s : SeqState) (h1 : 1 ≤ s.steps) :
    1 ≤ (applyPattern i s).steps := by
  unfold applyPattern
  cases h : slotIdx i
  · exact h1
  · rename_i j
    show 1 ≤ (if ((saveCurrentPattern s).patterns.store j).bars = 0 then 1
        else ((saveCurrentPattern s).patterns.store j).bars) * stepsPerBar (saveCurrentPattern s)
    refine Nat.mul_pos ?_ (le_max_left 1 _)
    split <;> omega

lemma setBpm_fields (t : Int) (s : SeqState) :
    (setBpm t s).steps = s.steps ∧
    (setBpm t s).currentStep = s.currentStep ∧
    (setBpm t s).isPlaying = s.isPlaying := by
  cases hp : s.isPlaying <;> simp [setBpm, hp, updateStepInterval_fields]

lemma transportInv_applyPattern (i : Int) (s : SeqState)
    (h : TransportInv s) (hnp : s.isPlaying = false) :
    TransportInv (applyPattern i s) := by
  obtain ⟨hA1, hA2⟩ := applyPattern_fields i s
  have hcs : s.currentStep = 0 := h.2.2 hnp
  refine ⟨one_le_applyPattern_steps i s h.1, ?_, ?_⟩
  · rw [hA2, hcs]
    exact one_le_applyPattern_steps i s h.1
  · intro _
    rw [hA2, hcs]

lemma transportInv_setBars (b : Int) (s : SeqState) (h : TransportInv s) :
    TransportInv (setBars b s) := by
  obtain ⟨h1, h2, h3⟩ := h
  unfold setBars
  cases hj : slotIdx s.patterns.active
  · exact ⟨h1, h2, h3⟩
  · rename_i j
    split
    · exact ⟨h1, h2, h3⟩
    · rename_i jj hc
      simp only []
      split
      · exact ⟨h1, h2, h3⟩
      · rename_i hne
        have hn : 1 ≤ (max 1 (min 16 b)).toNat * stepsPerBar s := by
          refine Nat.mul_pos ?_ (le_max_left 1 _)
          omega
        refine ⟨?_, ?_, ?_⟩
        · simpa [maybeRestartTimer_fields] using hn
        · simp [maybeRestartTimer_fields]
          exact Nat.mod_lt _ hn
        · intro hf
          simp [maybeRestartTimer_fields] at hf ⊢
          rw [h3 hf]
          simp

lemma applyPendingAtBoundary_fields (s : SeqState) (h1 : 1 ≤ s.steps) :
    1 ≤ (applyPendingAtBoundary s).steps ∧
    (applyPendingAtBoundary s).isPlaying = s.isPlaying := by
  unfold applyPendingAtBoundary
  cases hpd : s.patterns.pending
  · exact ⟨h1, rfl⟩
  · rename_i pid
    simp only []
    split
    · exact ⟨one_le_applyPattern_steps pid s h1, (applyPattern_fields pid s).1⟩
    · exact ⟨h1, rfl⟩

lemma transportInv_tickOnce (s : SeqState) (h : TransportInv s)
    (hp : s.isPlaying = true) : TransportInv (tickOnce s).1 := by
  obtain ⟨h1, h2, h3⟩ := h
  unfold tickOnce
  split
  · obtain ⟨ha1, ha2⟩ := applyPendingAtBoundary_fields s h1
    exact ⟨ha1, Nat.mod_lt _ ha1, fun hf => (bool_tf hp (Eq.trans ha2.symm hf)).elim⟩
  · exact ⟨h1, Nat.mod_lt _ h1, fun hf => (bool_tf hp hf).elim⟩

/-- C9: the transport invariant — step count at least 1, step index in
`[0, steps)`, index 0 whenever stopped — is preserved by every public
operation: play, stop, a tick (while playing), setBpm, setBars, a
time-signature change, requestPattern, applyPattern (from its stopped call
context; the playing case runs inside the tick, which is covered), a
loadSequence, and clearSequence.  Hence the tick's modulo advance never
divides by zero and the step index used to read activation arrays is always
in range of the live step count. -/
theorem c9_transport_invariant (s : SeqState) (h : TransportInv s) :
    TransportPreserved s := by
  obtain ⟨h1, h2, h3⟩ := h
  refine ⟨?_, ?_, ?_, ?_, ?_, ?_, ?_, ?_, ?_, ?_⟩
  · exact ⟨h1, h2, fun hf => by simp [play] at hf⟩
  · unfold stop
    cases hsi : s.stepInterval
    · exact ⟨h1, h1, fun _ => rfl⟩
    · exact ⟨h1, h1, fun _ => rfl⟩
  · exact fun hp => transportInv_tickOnce s ⟨h1, h2, h3⟩ hp
  · intro t
    obtain ⟨hb1, hb2, hb3⟩ := setBpm_fields t s
    exact transportInv_of_fields hb1 hb2 hb3 ⟨h1, h2, h3⟩
  · exact fun b => transportInv_setBars b s ⟨h1, h2, h3⟩
  · exact fun num den =>
      transportInv_setBars (getBars { s with tsNum := num, tsDen := den })
        { s with tsNum := num, tsDen := den } ⟨h1, h2, h3⟩
  · intro i
    unfold requestPattern
    split
    · exact ⟨h1, h2, h3⟩
    · split
      · exact ⟨h1, h2, h3⟩
      · rename_i hne hnp
        simp only [Bool.not_eq_true] at hnp
        exact transportInv_applyPattern i s ⟨h1, h2, h3⟩ hnp
  · intro i hnp
    exact transportInv_applyPattern i s ⟨h1, h2, h3⟩ hnp
  · intro snap
    have hl : (loadSequence snap s).steps = s.steps ∧
        (loadSequence snap s).currentStep = s.currentStep ∧
        (loadSequence snap s).isPlaying = s.isPlaying := by
      unfold loadSequence
      exact setBpm_fields _ _
    exact transportInv_of_fields hl.1 hl.2.1 hl.2.2 ⟨h1, h2, h3⟩
  · exact ⟨h1, h2, h3⟩

/-- Witness for C9: the initial state satisfies the transport invariant. -/
theorem c9_transport_invariant_witness :
    TransportInv initState ∧ TransportPreserved initState :=
  ⟨by decide, c9_transport_invariant initState (by decide)⟩

end MusicMachine
